import Mathlib

/-!
Shallow embedding of the measurement-tracking backend (`src/main.py` and
`src/sessions.py`) and proofs about its generic query engine, measurement
registry, calibration session workflow and error handling.

Conventions of the embedding:
* JSON values are modelled by `Value`; JSON objects by association lists
  `List (String × Value)` in insertion order (Python `dict` iteration order).
* `HTTPException(status, detail)` raises are modelled by the inductive
  `ErrorDetail` together with `statusOf`; the f-string details of the source
  become structured constructors carrying the same data.
* The live database schema (SQLAlchemy `inspect`) is a parameter `Schema`;
  `appSchema` is the schema of the three models declared in `main.py`.
* Database tables are modelled by lists of rows; `db.session` state is passed
  explicitly, so "no SQL executed" is `result is independent of the database /
  the returned store equals the input store".
* `datetime.datetime.now()` instants are modelled as integer seconds; a
  `datetime`'s `.date()` and `.time()` parts become `now / 86400` and
  `now % 86400`.
-/

/-- A JSON / SQL cell value. -/
inductive Value : Type where
  | str (s : String)
  | num (n : Int)
  | bool (b : Bool)
  | null
deriving DecidableEq, Repr

/-- Structured form of every `HTTPException` detail raised by the endpoints
modelled here, plus `internalError` for the generic `except Exception`
handlers (`main.py` turns those into a 500 response). -/
inductive ErrorDetail : Type where
  | missingTable
  | tableNotFound
  | unknownColumns (cols : List String)
  | unknownFilterColumn (col : String)
  | missingSet
  | unknownSetColumns (cols : List String)
  | unknownSetColumn (col : String)
  | noPrimaryKey
  | compositePkList
  | refusingUpdate
  | missingField (f : String)
  | conflictShaft
  | conflictHousing
  | invalidHousingType
  | invalidMeasurementType
  | sessionNotFound
  | internalError
deriving DecidableEq, Repr

/-- HTTP status code attached to each error, as in `main.py`. -/
def statusOf : ErrorDetail → Nat
  | .missingTable => 400
  | .tableNotFound => 404
  | .unknownColumns _ => 400
  | .unknownFilterColumn _ => 400
  | .missingSet => 400
  | .unknownSetColumns _ => 400
  | .unknownSetColumn _ => 400
  | .noPrimaryKey => 400
  | .compositePkList => 400
  | .refusingUpdate => 400
  | .missingField _ => 400
  | .conflictShaft => 409
  | .conflictHousing => 409
  | .invalidHousingType => 400
  | .invalidMeasurementType => 400
  | .sessionNotFound => 404
  | .internalError => 500

/-- First-match association-list lookup (Python `dict.get` on objects whose
keys are unique, and SQLAlchemy row access by column name). -/
def alookup {α : Type} (k : String) : List (String × α) → Option α
  | [] => none
  | p :: ps => if p.1 = k then some p.2 else alookup k ps

/-- Python `d[k] = v`: replace the first binding of `k`, else append. -/
def setKey {α : Type} (k : String) (v : α) : List (String × α) → List (String × α)
  | [] => [(k, v)]
  | p :: ps => if p.1 = k then (k, v) :: ps else p :: setKey k v ps

/-- Insert a string into a `≤`-sorted list keeping it sorted. -/
def insertStr (s : String) : List String → List String
  | [] => [s]
  | t :: ts => if s ≤ t then s :: t :: ts else t :: insertStr s ts

/-- Insertion sort on strings: the embedding of Python `sorted(...)` on a set
of column names. -/
def sortStrings : List String → List String
  | [] => []
  | s :: ss => insertStr s (sortStrings ss)

/-- Live metadata for one table, as reported by the SQLAlchemy inspector:
its column names (`_get_columns_meta`) and primary-key columns
(`_get_pk_columns`). -/
structure TableMeta : Type where
  columns : List String
  pkCols : List String
deriving DecidableEq, Repr

/-- The reflected database schema: table name to metadata. -/
abbrev Schema : Type := List (String × TableMeta)

/-- A database row: column name to value. -/
abbrev Row : Type := List (String × Value)

/-- The database contents: table name to list of rows. -/
abbrev Db : Type := String → List Row

/-- Body of `POST /db/query/select` (after JSON parsing and the defaulting
performed by `body.get(..., default)` in `generic_select`). -/
structure SelectBody : Type where
  table : Option String := none
  columns : Option (List String) := none
  filters : List (String × Value) := []
  limit : Nat := 100
  offset : Nat := 0

/-- The columns explicitly requested by the body; `[]` both when `columns`
is absent and when it is the (falsy) empty list, mirroring
`if columns_req:` in `generic_select`. -/
def requestedColumns (body : SelectBody) : List String :=
  match body.columns with
  | some (c :: cs) => c :: cs
  | _ => []

/-- First filter key that is not a valid column, in iteration order: the
loop `for i, (k, v) in enumerate(filters.items())` stops at the first
unknown key with a 400. -/
def firstUnknownKey (valid : List String) : List (String × Value) → Option String
  | [] => none
  | kv :: kvs => if kv.1 ∈ valid then firstUnknownKey valid kvs else some kv.1

/-- Python `sorted(set(names) - valid)`: the distinct unknown names, sorted. -/
def unknownNames (valid names : List String) : List String :=
  sortStrings ((names.filter (fun x => !decide (x ∈ valid))).dedup)

/-- The fully validated SELECT statement: table, projected columns, equality
filters and pagination, ready to execute. -/
structure SelectPlan : Type where
  table : String
  columns : List String
  filters : List (String × Value)
  limit : Nat
  offset : Nat
deriving DecidableEq, Repr

/-- Result body of a successful `POST /db/query/select`. -/
structure SelectResult : Type where
  table : String
  count : Nat
  data : List Row
deriving DecidableEq, Repr

/-- Validation phase of `generic_select` (everything before
`conn.execute`): checks `table`, the requested columns and the filter keys
against the live schema and produces the statement to run. -/
def buildSelectPlan (schema : Schema) (body : SelectBody) : Except ErrorDetail SelectPlan :=
  match body.table with
  | none => .error .missingTable
  | some t =>
    if t = "" then .error .missingTable
    else
      match alookup t schema with
      | none => .error .tableNotFound
      | some meta =>
        let req := requestedColumns body
        let unknown := unknownNames meta.columns req
        if unknown = [] then
          match firstUnknownKey meta.columns body.filters with
          | some k => .error (.unknownFilterColumn k)
          | none =>
            .ok { table := t
                  columns := if req.isEmpty then sortStrings meta.columns.dedup else req
                  filters := body.filters
                  limit := body.limit
                  offset := body.offset }
        else .error (.unknownColumns unknown)

/-- Does a row satisfy every equality filter?  A SQL `col = :param`
comparison with a NULL parameter matches no row. -/
def matchesFilters (row : Row) (fs : List (String × Value)) : Bool :=
  fs.all (fun kv => decide (kv.2 ≠ Value.null ∧ alookup kv.1 row = some kv.2))

/-- Projection of one result row onto the selected columns. -/
def projectRow (cols : List String) (row : Row) : Row :=
  cols.map (fun c => (c, (alookup c row).getD Value.null))

/-- Execution phase of `generic_select`: run the built statement
(`SELECT cols FROM t WHERE ... LIMIT :_limit OFFSET :_offset`). -/
def runSelectPlan (dbase : Db) (p : SelectPlan) : SelectResult :=
  let rows :=
    ((((dbase p.table).filter (fun r => matchesFilters r p.filters)).drop p.offset).take
      p.limit).map (projectRow p.columns)
  { table := p.table, count := rows.length, data := rows }

/-- `POST /db/query/select` (`generic_select` in `main.py`). -/
def generic_select (schema : Schema) (dbase : Db) (body : SelectBody) :
    Except ErrorDetail SelectResult :=
  (buildSelectPlan schema body).map (runSelectPlan dbase)

/-- The `pk` field of an update body: a JSON scalar or a JSON list
(`isinstance(pk_values, (list, tuple))` in `generic_update`). -/
inductive PkValue : Type where
  | scalar (v : Value)
  | list (vs : List Value)
deriving DecidableEq, Repr

/-- Body of `POST /db/query/update`. `set := none` covers both an absent and
a falsy `set`; `filters` defaults to `[]` (`body.get("filters") or` empty). -/
structure UpdateBody : Type where
  table : Option String := none
  set : Option (List (String × Value)) := none
  filters : List (String × Value) := []
  pk : Option PkValue := none

/-- The fully validated UPDATE statement. -/
structure UpdatePlan : Type where
  table : String
  setVals : List (String × Value)
  filters : List (String × Value)
deriving DecidableEq, Repr

/-- Result body of a successful `POST /db/query/update`. -/
structure UpdateResult : Type where
  table : String
  updated : Nat
deriving DecidableEq, Repr

/-- Tail of `generic_update`'s validation after the pk merge: the
`if not filters` guard, the SET-loop column check and the WHERE-loop column
check, in source order. -/
def finishUpdatePlan (t : String) (valid : List String)
    (setVals fs : List (String × Value)) : Except ErrorDetail UpdatePlan :=
  if fs = [] then .error .refusingUpdate
  else
    match firstUnknownKey valid setVals with
    | some k => .error (.unknownSetColumn k)
    | none =>
      match firstUnknownKey valid fs with
      | some k => .error (.unknownFilterColumn k)
      | none => .ok { table := t, setVals := setVals, filters := fs }

/-- Validation phase of `generic_update` (everything before
`conn.execute`): table and `set` checks, the unknown-set-column check, the
pk merge into `filters`, then `finishUpdatePlan`.  `pk_values[0]` on an
empty list raises `IndexError`, which the handler's blanket
`except Exception` converts to a 500 (`internalError`). -/
def buildUpdatePlan (schema : Schema) (body : UpdateBody) : Except ErrorDetail UpdatePlan :=
  match body.table with
  | none => .error .missingTable
  | some t =>
    if t = "" then .error .missingTable
    else
      match alookup t schema with
      | none => .error .tableNotFound
      | some meta =>
        match body.set with
        | none => .error .missingSet
        | some [] => .error .missingSet
        | some (s :: ss) =>
          let setVals := s :: ss
          let unknownSet := unknownNames meta.columns (setVals.map Prod.fst)
          if unknownSet = [] then
            match body.pk with
            | none => finishUpdatePlan t meta.columns setVals body.filters
            | some pv =>
              match meta.pkCols with
              | [] => .error .noPrimaryKey
              | c :: cs =>
                match pv with
                | .scalar v => finishUpdatePlan t meta.columns setVals (setKey c v body.filters)
                | .list vs =>
                  match cs with
                  | _ :: _ => .error .compositePkList
                  | [] =>
                    match vs with
                    | [] => .error .internalError
                    | v :: _ =>
                      finishUpdatePlan t meta.columns setVals (setKey c v body.filters)
          else .error (.unknownSetColumns unknownSet)

/-- One row after `UPDATE ... SET ...` is applied to it. -/
def applySetVals (setVals : List (String × Value)) (row : Row) : Row :=
  setVals.foldl (fun r kv => setKey kv.1 kv.2 r) row

/-- Execution phase of `generic_update`: run the built statement inside a
transaction; `updated` is the engine-reported rowcount. -/
def runUpdatePlan (dbase : Db) (p : UpdatePlan) : UpdateResult × Db :=
  let rows := dbase p.table
  let n := (rows.filter (fun r => matchesFilters r p.filters)).length
  let newRows := rows.map (fun r => if matchesFilters r p.filters then applySetVals p.setVals r else r)
  ({ table := p.table, updated := n }, fun t2 => if t2 = p.table then newRows else dbase t2)

/-- `POST /db/query/update` (`generic_update` in `main.py`), with the
database state passed explicitly: an error leaves it untouched. -/
def generic_update (schema : Schema) (dbase : Db) (body : UpdateBody) :
    Except ErrorDetail UpdateResult × Db :=
  match buildUpdatePlan schema body with
  | .error e => (.error e, dbase)
  | .ok p =>
    let r := runUpdatePlan dbase p
    (.ok r.1, r.2)

/-- Merged filters as the spec describes the pk shorthand: each value
supplied through `pk` is merged into `filters` keyed by the sole
primary-key column.  (Spec-side reading used to state claims about the
post-merge filter mapping; the code-side merge lives in
`buildUpdatePlan`.) -/
def specMergedFilters (meta : TableMeta) (body : UpdateBody) : List (String × Value) :=
  match body.pk, meta.pkCols with
  | none, _ => body.filters
  | some _, [] => body.filters
  | some (.scalar v), c :: _ => setKey c v body.filters
  | some (.list vs), c :: _ => vs.foldl (fun fs v => setKey c v fs) body.filters

/-- Columns of the `user_entry` model in `main.py`. -/
def user_entry_meta : TableMeta :=
  { columns := ["id", "roll_number", "name", "date", "time", "last_login"], pkCols := ["id"] }

/-- Columns of the `measured_shafts` model in `main.py`. -/
def measured_shafts_meta : TableMeta :=
  { columns := ["id", "product_id", "roll_number", "shaft_height", "shaft_radius", "timestamp"]
    pkCols := ["id"] }

/-- Columns of the `measured_housings` model in `main.py`. -/
def measured_housings_meta : TableMeta :=
  { columns := ["id", "product_id", "roll_number", "housing_type", "housing_radius",
                "housing_height", "housing_depth", "timestamp"]
    pkCols := ["id"] }

/-- The live schema created by `db.create_all()` for the three models. -/
def appSchema : Schema :=
  [("user_entry", user_entry_meta),
   ("measured_shafts", measured_shafts_meta),
   ("measured_housings", measured_housings_meta)]

/-- An empty database. -/
def emptyDb : Db := fun _ => []

/-- A row of `measured_shafts` as created by `add_shaft_measurement`. -/
structure ShaftRecord : Type where
  id : Nat
  product_id : Value
  roll_number : Value
  shaft_height : Value
  shaft_radius : Value
  timestamp : Int
deriving DecidableEq, Repr

/-- A row of `measured_housings` as created by `add_housing_measurement`. -/
structure HousingRecord : Type where
  id : Nat
  product_id : Value
  roll_number : Value
  housing_type : Value
  housing_radius : Value
  housing_height : Value
  housing_depth : Value
  timestamp : Int
deriving DecidableEq, Repr

/-- The `measured_shafts` table plus its autoincrement counter. -/
structure ShaftStore : Type where
  nextId : Nat
  rows : List ShaftRecord
deriving DecidableEq, Repr

/-- The `measured_housings` table plus its autoincrement counter. -/
structure HousingStore : Type where
  nextId : Nat
  rows : List HousingRecord
deriving DecidableEq, Repr

/-- `MeasuredShaft.query.filter_by(product_id=pid).first() is not None`. -/
def shaftExists (pid : Value) (st : ShaftStore) : Bool :=
  st.rows.any (fun r => decide (r.product_id = pid))

/-- `MeasuredHousing.query.filter_by(product_id=pid).first() is not None`. -/
def housingExists (pid : Value) (st : HousingStore) : Bool :=
  st.rows.any (fun r => decide (r.product_id = pid))

/-- First required field missing from the request body: the loop
`for field in required_fields: if field not in entry: raise 400`. -/
def firstMissingField (fs : List String) (entry : List (String × Value)) : Option String :=
  match fs with
  | [] => none
  | f :: rest => if (alookup f entry).isSome then firstMissingField rest entry else some f

/-- `entry[f]` after presence has been established. -/
def fieldD (entry : List (String × Value)) (f : String) : Value :=
  (alookup f entry).getD Value.null

/-- Required fields of `POST /shaft_measurement`. -/
def shaftRequiredFields : List String :=
  ["product_id", "roll_number", "shaft_height", "shaft_radius"]

/-- `POST /shaft_measurement` (`add_shaft_measurement` in `main.py`):
required-field check, duplicate `product_id` check, insert stamped with the
current instant; success body is the dict literally returned by the source,
`{"status": "shaft measurement added", "id": new_entry.id}`. -/
def add_shaft_measurement (now : Int) (st : ShaftStore) (entry : List (String × Value)) :
    Except ErrorDetail (List (String × Value)) × ShaftStore :=
  match firstMissingField shaftRequiredFields entry with
  | some f => (.error (.missingField f), st)
  | none =>
    let pid := fieldD entry "product_id"
    if shaftExists pid st then (.error .conflictShaft, st)
    else
      let new_entry : ShaftRecord :=
        { id := st.nextId
          product_id := pid
          roll_number := fieldD entry "roll_number"
          shaft_height := fieldD entry "shaft_height"
          shaft_radius := fieldD entry "shaft_radius"
          timestamp := now }
      (.ok [("status", Value.str "shaft measurement added"),
            ("id", Value.num (Int.ofNat st.nextId))],
       { nextId := st.nextId + 1, rows := st.rows ++ [new_entry] })

/-- Required fields of `POST /housing_measurement`. -/
def housingRequiredFields : List String :=
  ["product_id", "roll_number", "housing_type", "housing_height", "housing_radius"]

/-- The `valid_housing_types` whitelist of `add_housing_measurement`. -/
def validHousingTypes : List Value :=
  [Value.str "housing", Value.str "oval", Value.str "sqaure", Value.str "angular"]

/-- `POST /housing_measurement` (`add_housing_measurement` in `main.py`). -/
def add_housing_measurement (now : Int) (st : HousingStore) (entry : List (String × Value)) :
    Except ErrorDetail (List (String × Value)) × HousingStore :=
  match firstMissingField housingRequiredFields entry with
  | some f => (.error (.missingField f), st)
  | none =>
    if fieldD entry "housing_type" ∉ validHousingTypes then (.error .invalidHousingType, st)
    else
      let pid := fieldD entry "product_id"
      if housingExists pid st then (.error .conflictHousing, st)
      else
        let new_entry : HousingRecord :=
          { id := st.nextId
            product_id := pid
            roll_number := fieldD entry "roll_number"
            housing_type := fieldD entry "housing_type"
            housing_radius := fieldD entry "housing_radius"
            housing_height := (alookup "housing_height" entry).getD Value.null
            housing_depth := (alookup "housing_depth" entry).getD Value.null
            timestamp := now }
        (.ok [("status", Value.str "housing measurement added"),
              ("id", Value.num (Int.ofNat st.nextId))],
         { nextId := st.nextId + 1, rows := st.rows ++ [new_entry] })

/-- `GET /product_exists` (`product_exists_endpoint` in `main.py`).
`dbFails` models the ORM query raising: the handler catches it, rolls back
and continues with `exists = False`, still answering 200. -/
def product_exists_endpoint (measurementType : String) (pid : Value)
    (shafts : ShaftStore) (housings : HousingStore) (dbFails : Bool) :
    Except ErrorDetail (List (String × Value)) :=
  if measurementType ∉ ["shaft", "housing"] then .error .invalidMeasurementType
  else
    let ex :=
      if dbFails then false
      else if measurementType = "shaft" then shaftExists pid shafts
      else housingExists pid housings
    .ok [("measurement_type", Value.str measurementType),
         ("product_id", pid),
         ("exists", Value.bool ex)]

/-- Response body of `GET /measured_units/{roll_number}`. -/
structure MeasuredUnitsBody : Type where
  status : String
  roll_number : String
  shaft_measurements : List (List (String × Value))
  housing_measurements : List (List (String × Value))
deriving DecidableEq, Repr

/-- The per-shaft dict built by `get_measured_units_by_roll_number`. -/
def shaftUnitDict (s : ShaftRecord) : List (String × Value) :=
  [("id", Value.num (Int.ofNat s.id)),
   ("product_id", s.product_id),
   ("shaft_height", s.shaft_height),
   ("shaft_radius", s.shaft_radius),
   ("timestamp", Value.num s.timestamp)]

/-- The per-housing dict built by `get_measured_units_by_roll_number`
(note: it exposes `housing_height`, not `housing_depth`). -/
def housingUnitDict (h : HousingRecord) : List (String × Value) :=
  [("id", Value.num (Int.ofNat h.id)),
   ("product_id", h.product_id),
   ("housing_type", h.housing_type),
   ("housing_height", h.housing_height),
   ("housing_radius", h.housing_radius),
   ("timestamp", Value.num h.timestamp)]

/-- `GET /measured_units/{roll_number}` in `main.py`.  The handler has no
error path at all: when the queries raise (`dbFails`), it rolls back and
returns 200 with empty lists and `status = "success"`. -/
def get_measured_units_by_roll_number (rollNumber : String)
    (shafts : ShaftStore) (housings : HousingStore) (dbFails : Bool) : MeasuredUnitsBody :=
  if dbFails then
    { status := "success", roll_number := rollNumber
      shaft_measurements := [], housing_measurements := [] }
  else
    { status := "success"
      roll_number := rollNumber
      shaft_measurements :=
        (shafts.rows.filter (fun s => decide (s.roll_number = Value.str rollNumber))).map
          shaftUnitDict
      housing_measurements :=
        (housings.rows.filter (fun h => decide (h.roll_number = Value.str rollNumber))).map
          housingUnitDict }

/-- A calibration session (`UserSession` in `sessions.py`). -/
structure UserSession : Type where
  session_id : String
  roll_number : String
  name : String
  created_at : Int
  status : String
  calibration_required : Bool
deriving DecidableEq, Repr

/-- The in-memory `active_sessions` dict: session id to session. -/
abbrev SessionStore : Type := List (String × UserSession)

/-- `get_user_session` in `sessions.py`: dictionary lookup. -/
def get_user_session (sid : String) (store : SessionStore) : Option UserSession :=
  alookup sid store

/-- Set the status of the session bound to `sid` to `"calibrated"`
(the in-place mutation `session.status = "calibrated"`). -/
def markCalibrated (sid : String) : SessionStore → SessionStore
  | [] => []
  | p :: ps =>
    if p.1 = sid then (p.1, { p.2 with status := "calibrated" }) :: ps
    else p :: markCalibrated sid ps

/-- `complete_user_session` in `sessions.py`: mark the session calibrated
when it exists, reporting whether it was found. -/
def complete_user_session (sid : String) (store : SessionStore) : Bool × SessionStore :=
  match alookup sid store with
  | some _ => (true, markCalibrated sid store)
  | none => (false, store)

/-- A row of `user_entry` in `main.py`. -/
structure UserEntry : Type where
  id : Nat
  roll_number : String
  name : String
  date : Int
  time : Int
  last_login : Option Int
deriving DecidableEq, Repr

/-- The `user_entry` table plus its autoincrement counter. -/
structure UserDb : Type where
  nextId : Nat
  rows : List UserEntry
deriving DecidableEq, Repr

/-- `UserEntry.query.filter_by(roll_number=rn).first()`. -/
def findUserByRoll (rn : String) (rows : List UserEntry) : Option UserEntry :=
  rows.find? (fun u => decide (u.roll_number = rn))

/-- `_should_calibrate` in `main.py`: calibrate when no entry exists, when
`last_login` is absent, or when more than 24 hours have elapsed. -/
def _should_calibrate (now : Int) (udb : UserDb) (rollNumber : String) : Bool :=
  match findUserByRoll rollNumber udb.rows with
  | none => true
  | some user =>
    match user.last_login with
    | none => true
    | some ll => decide (now - ll > 24 * 3600)

/-- The in-place mutation of the first `user_entry` row matching the roll
number performed by `complete_calibration`: refresh `last_login`, `date`
and `time`, touch nothing else. -/
def touchFirstUser (rn : String) (now : Int) : List UserEntry → List UserEntry
  | [] => []
  | u :: us =>
    if u.roll_number = rn then
      { u with last_login := some now, date := now / 86400, time := now % 86400 } :: us
    else u :: touchFirstUser rn now us

/-- The body returned when the session is already calibrated. -/
def alreadyCompletedBody : List (String × Value) :=
  [("status", Value.str "already_completed"),
   ("message", Value.str "Calibration already completed")]

/-- The body returned on a fresh completion. -/
def calibrationCompletedBody (rn nm : String) : List (String × Value) :=
  [("status", Value.str "calibration_completed"),
   ("roll_number", Value.str rn),
   ("name", Value.str nm),
   ("message", Value.str "User entry finalized successfully")]

/-- `POST /user_entry/complete_calibration` (`complete_calibration` in
`main.py`): 404 on an unknown session; an already-calibrated session is
answered `already_completed` with nothing touched; otherwise the matching
`user_entry` row is refreshed (or a new one inserted) and the session is
marked calibrated. -/
def complete_calibration (sid : String) (store : SessionStore) (udb : UserDb) (now : Int) :
    Except ErrorDetail (List (String × Value)) × SessionStore × UserDb :=
  match get_user_session sid store with
  | none => (.error .sessionNotFound, store, udb)
  | some s =>
    if s.status = "calibrated" then (.ok alreadyCompletedBody, store, udb)
    else
      let udb2 :=
        match findUserByRoll s.roll_number udb.rows with
        | some _ => { udb with rows := touchFirstUser s.roll_number now udb.rows }
        | none =>
          { nextId := udb.nextId + 1
            rows := udb.rows ++
              [{ id := udb.nextId
                 roll_number := s.roll_number
                 name := s.name
                 date := now / 86400
                 time := now % 86400
                 last_login := some now }] }
      let store2 := (complete_user_session sid store).2
      (.ok (calibrationCompletedBody s.roll_number s.name), store2, udb2)

theorem mem_insertStr {a s : String} {l : List String} :
    a ∈ insertStr s l ↔ a = s ∨ a ∈ l := by
  induction l with
  | nil => simp [insertStr]
  | cons t ts ih =>
    by_cases h : s ≤ t
    · simp [insertStr, h]
    · simp [insertStr, h, List.mem_cons, ih]
      tauto

theorem mem_sortStrings {a : String} {l : List String} :
    a ∈ sortStrings l ↔ a ∈ l := by
  induction l with
  | nil => simp [sortStrings]
  | cons s ss ih => simp [sortStrings, mem_insertStr, ih]

theorem pairwise_insertStr (s : String) {l : List String}
    (h : l.Pairwise (fun a b => a ≤ b)) :
    (insertStr s l).Pairwise (fun a b => a ≤ b) := by
  induction l with
  | nil => simp [insertStr]
  | cons t ts ih =>
    rw [List.pairwise_cons] at h
    obtain ⟨ht, hts⟩ := h
    by_cases hst : s ≤ t
    · simp only [insertStr, if_pos hst]
      refine List.Pairwise.cons ?_ (List.Pairwise.cons ht hts)
      intro b hb
      rcases List.mem_cons.mp hb with rfl | hb
      · exact hst
      · exact le_trans hst (ht b hb)
    · simp only [insertStr, if_neg hst]
      refine List.Pairwise.cons ?_ (ih hts)
      intro b hb
      rcases mem_insertStr.mp hb with rfl | hb
      · exact le_of_not_le hst
      · exact ht b hb

theorem sortStrings_pairwise (l : List String) :
    (sortStrings l).Pairwise (fun a b => a ≤ b) := by
  induction l with
  | nil => simp [sortStrings]
  | cons s ss ih => exact pairwise_insertStr s ih

theorem insertStr_ne_nil (s : String) (l : List String) : insertStr s l ≠ [] := by
  cases l with
  | nil => simp [insertStr]
  | cons t ts =>
    simp only [insertStr]
    split <;> simp

theorem sortStrings_eq_nil {l : List String} : sortStrings l = [] ↔ l = [] := by
  cases l with
  | nil => simp [sortStrings]
  | cons s ss =>
    simp only [sortStrings]
    exact ⟨fun h => absurd h (insertStr_ne_nil s (sortStrings ss)), fun h => by cases h⟩

theorem unknownNames_eq_nil {valid names : List String} :
    unknownNames valid names = [] ↔ ∀ x ∈ names, x ∈ valid := by
  rw [unknownNames, sortStrings_eq_nil, List.dedup_eq_nil, List.filter_eq_nil_iff]
  simp

theorem mem_unknownNames {valid names : List String} {x : String} :
    x ∈ unknownNames valid names ↔ x ∈ names ∧ x ∉ valid := by
  rw [unknownNames, mem_sortStrings, List.mem_dedup, List.mem_filter]
  simp

theorem firstUnknownKey_eq_none {valid : List String} {kvs : List (String × Value)} :
    firstUnknownKey valid kvs = none ↔ ∀ kv ∈ kvs, kv.1 ∈ valid := by
  induction kvs with
  | nil => simp [firstUnknownKey]
  | cons kv kvs ih =>
    by_cases h : kv.1 ∈ valid
    · simp [firstUnknownKey, h, ih]
    · simp [firstUnknownKey, h]

theorem firstUnknownKey_some_not_mem {valid : List String} {kvs : List (String × Value)}
    {k : String} (h : firstUnknownKey valid kvs = some k) : k ∉ valid := by
  induction kvs with
  | nil => simp [firstUnknownKey] at h
  | cons kv kvs ih =>
    by_cases hm : kv.1 ∈ valid
    · rw [firstUnknownKey, if_pos hm] at h
      exact ih h
    · rw [firstUnknownKey, if_neg hm] at h
      cases h
      exact hm

theorem firstUnknownKey_isSome_of_mem {valid : List String} {kvs : List (String × Value)}
    {kv : String × Value} (hmem : kv ∈ kvs) (hk : kv.1 ∉ valid) :
    ∃ k, firstUnknownKey valid kvs = some k ∧ k ∉ valid := by
  induction kvs with
  | nil => cases hmem
  | cons p ps ih =>
    by_cases hp : p.1 ∈ valid
    · rcases List.mem_cons.mp hmem with rfl | hmem2
      · exact absurd hp hk
      · obtain ⟨k, hk1, hk2⟩ := ih hmem2
        exact ⟨k, by rw [firstUnknownKey, if_pos hp]; exact hk1, hk2⟩
    · exact ⟨p.1, by rw [firstUnknownKey, if_neg hp], hp⟩

theorem mem_setKey_self {k : String} {v : Value} (fs : List (String × Value)) :
    (k, v) ∈ setKey k v fs := by
  induction fs with
  | nil => simp [setKey]
  | cons p ps ih =>
    by_cases h : p.1 = k
    · simp [setKey, h]
    · simp only [setKey, if_neg h]
      exact List.mem_cons_of_mem p ih

theorem mem_setKey_of_ne {kv : String × Value} {fs : List (String × Value)}
    {k : String} {v : Value} (hmem : kv ∈ fs) (hne : kv.1 ≠ k) :
    kv ∈ setKey k v fs := by
  induction fs with
  | nil => cases hmem
  | cons p ps ih =>
    by_cases h : p.1 = k
    · simp only [setKey, if_pos h]
      rcases List.mem_cons.mp hmem with rfl | hmem2
      · exact absurd h hne
      · exact List.mem_cons_of_mem _ hmem2
    · simp only [setKey, if_neg h]
      rcases List.mem_cons.mp hmem with rfl | hmem2
      · exact List.mem_cons_self _ _
      · exact List.mem_cons_of_mem _ (ih hmem2)

theorem setKey_ne_nil {k : String} {v : Value} (fs : List (String × Value)) :
    setKey k v fs ≠ [] := by
  cases fs with
  | nil => simp [setKey]
  | cons p ps =>
    simp only [setKey]
    split <;> simp

theorem projectRow_keys (cols : List String) (row : Row) :
    (projectRow cols row).map Prod.fst = cols := by
  induction cols with
  | nil => rfl
  | cons c cs ih => simp [projectRow] at ih ⊢; exact ih

theorem finishUpdatePlan_ok_filters_ne_nil {t : String} {valid : List String}
    {sv fs : List (String × Value)} {p : UpdatePlan}
    (h : finishUpdatePlan t valid sv fs = .ok p) : p.filters ≠ [] := by
  by_cases hfs : fs = []
  · rw [finishUpdatePlan, if_pos hfs] at h
    cases h
  · rw [finishUpdatePlan, if_neg hfs] at h
    rcases h1 : firstUnknownKey valid sv with - | k
    · rw [h1] at h
      rcases h2 : firstUnknownKey valid fs with - | k2
      · rw [h2] at h
        cases h
        exact hfs
      · rw [h2] at h
        cases h
    · rw [h1] at h
      cases h

theorem buildUpdatePlan_ok_filters_ne_nil {schema : Schema} {body : UpdateBody}
    {p : UpdatePlan} (h : buildUpdatePlan schema body = .ok p) : p.filters ≠ [] := by
  simp only [buildUpdatePlan] at h
  repeat' split at h
  all_goals first
    | cases h
    | exact finishUpdatePlan_ok_filters_ne_nil h

theorem touchFirstUser_map_name (rn : String) (now : Int) (rows : List UserEntry) :
    (touchFirstUser rn now rows).map UserEntry.name = rows.map UserEntry.name := by
  induction rows with
  | nil => rfl
  | cons u us ih =>
    by_cases h : u.roll_number = rn
    · simp [touchFirstUser, h]
    · simp [touchFirstUser, h, ih]

theorem touchFirstUser_map_id (rn : String) (now : Int) (rows : List UserEntry) :
    (touchFirstUser rn now rows).map UserEntry.id = rows.map UserEntry.id := by
  induction rows with
  | nil => rfl
  | cons u us ih =>
    by_cases h : u.roll_number = rn
    · simp [touchFirstUser, h]
    · simp [touchFirstUser, h, ih]

theorem touchFirstUser_map_roll (rn : String) (now : Int) (rows : List UserEntry) :
    (touchFirstUser rn now rows).map UserEntry.roll_number =
      rows.map UserEntry.roll_number := by
  induction rows with
  | nil => rfl
  | cons u us ih =>
    by_cases h : u.roll_number = rn
    · simp [touchFirstUser, h]
    · simp [touchFirstUser, h, ih]

theorem findUserByRoll_touchFirstUser {rn : String} {rows : List UserEntry}
    {u : UserEntry} (now : Int) (h : findUserByRoll rn rows = some u) :
    findUserByRoll rn (touchFirstUser rn now rows) =
      some { u with last_login := some now, date := now / 86400, time := now % 86400 } := by
  induction rows with
  | nil => simp [findUserByRoll] at h
  | cons w ws ih =>
    by_cases hw : w.roll_number = rn
    · simp only [findUserByRoll, List.find?_cons, hw, decide_True, Option.some.injEq] at h
      subst h
      simp [touchFirstUser, hw, findUserByRoll, List.find?_cons]
    · simp only [findUserByRoll, List.find?_cons, hw, decide_False] at h
      have h2 : findUserByRoll rn ws = some u := h
      simpa [touchFirstUser, hw, findUserByRoll, List.find?_cons] using ih h2

theorem mem_touchFirstUser_of_ne {rn : String} {now : Int} {rows : List UserEntry}
    {x : UserEntry} (hx : x ∈ rows) (hne : x.roll_number ≠ rn) :
    x ∈ touchFirstUser rn now rows := by
  induction rows with
  | nil => cases hx
  | cons w ws ih =>
    by_cases hw : w.roll_number = rn
    · simp only [touchFirstUser, if_pos hw]
      rcases List.mem_cons.mp hx with rfl | hx2
      · exact absurd hw hne
      · exact List.mem_cons_of_mem _ hx2
    · simp only [touchFirstUser, if_neg hw]
      rcases List.mem_cons.mp hx with rfl | hx2
      · exact List.mem_cons_self _ _
      · exact List.mem_cons_of_mem _ (ih hx2)

theorem alookup_markCalibrated_self (sid : String) (store : SessionStore) :
    alookup sid (markCalibrated sid store) =
      (alookup sid store).map (fun s => { s with status := "calibrated" }) := by
  induction store with
  | nil => rfl
  | cons p ps ih =>
    by_cases h : p.1 = sid
    · simp [markCalibrated, alookup, h]
    · simp [markCalibrated, alookup, h, ih]

/-- C6: `_should_calibrate` returns true exactly when no `user_entry` row has
the roll number, or the (first) matching entry's `last_login` is absent, or
more than 24 hours have elapsed since that `last_login`; otherwise false. -/
theorem should_calibrate_characterization (now : Int) (udb : UserDb) (rollNumber : String) :
    _should_calibrate now udb rollNumber = true ↔
      ((∀ u ∈ udb.rows, u.roll_number ≠ rollNumber) ∨
        ∃ u, findUserByRoll rollNumber udb.rows = some u ∧
          (u.last_login = none ∨
            ∃ ll, u.last_login = some ll ∧ now - ll > 24 * 3600)) := by
  rcases hf : findUserByRoll rollNumber udb.rows with - | u
  · have hall : ∀ u ∈ udb.rows, u.roll_number ≠ rollNumber := by
      have := List.find?_eq_none.mp hf
      intro u hu
      have h2 := this u hu
      simpa using h2
    simp [_should_calibrate, hf]
    exact hall
  · have hmem := List.mem_of_find?_eq_some hf
    have hroll : u.roll_number = rollNumber := by
      have := List.find?_some hf
      simpa using this
    rcases hll : u.last_login with - | ll
    · simp [_should_calibrate, hf, hll]
    · simp only [_should_calibrate, hf, hll, decide_eq_true_eq]
      constructor
      · intro hgt
        exact Or.inr ⟨u, rfl, Or.inr ⟨ll, hll, hgt⟩⟩
      · intro h
        rcases h with hnone | ⟨u2, hu2, hcase⟩
        · exact absurd hroll (hnone u hmem)
        · cases hu2
          rcases hcase with hc | ⟨ll2, hll2, hgt⟩
          · rw [hll] at hc
            cases hc
          · rw [hll] at hll2
            cases hll2
            exact hgt

/-- C3: a select on a known table with `columns` omitted succeeds (given valid
filters), every returned row covers all columns of the table's schema in
lexicographically sorted order, and `count` equals the number of rows
actually returned after `limit`/`offset` are applied. -/
theorem select_default_columns_sorted_count
    (schema : Schema) (dbase : Db) (body : SelectBody) (t : String) (meta : TableMeta)
    (htable : body.table = some t) (hne : t ≠ "")
    (hmeta : alookup t schema = some meta)
    (hcols : body.columns = none)
    (hfilters : ∀ kv ∈ body.filters, kv.1 ∈ meta.columns) :
    ∃ r, generic_select schema dbase body = .ok r ∧
      r.count = r.data.length ∧
      r.data.length =
        ((((dbase t).filter (fun row => matchesFilters row body.filters)).drop
            body.offset).take body.limit).length ∧
      ∀ row ∈ r.data,
        row.map Prod.fst = sortStrings meta.columns.dedup ∧
        (row.map Prod.fst).Pairwise (fun a b => a ≤ b) ∧
        ∀ c ∈ meta.columns, c ∈ row.map Prod.fst := by
  have hreq : requestedColumns body = [] := by
    simp [requestedColumns, hcols]
  have hfk : firstUnknownKey meta.columns body.filters = none :=
    firstUnknownKey_eq_none.mpr hfilters
  have hplan : buildSelectPlan schema body =
      .ok { table := t, columns := sortStrings meta.columns.dedup, filters := body.filters,
            limit := body.limit, offset := body.offset } := by
    simp [buildSelectPlan, htable, hne, hmeta, hreq, hfk, unknownNames, sortStrings]
  have hgs : generic_select schema dbase body =
      .ok (runSelectPlan dbase
        { table := t, columns := sortStrings meta.columns.dedup, filters := body.filters,
          limit := body.limit, offset := body.offset }) := by
    rw [generic_select, hplan]
    rfl
  refine ⟨_, hgs, rfl, ?_, ?_⟩
  · simp [runSelectPlan]
  · intro row hrow
    simp only [runSelectPlan, List.mem_map] at hrow
    obtain ⟨row0, _, hproj⟩ := hrow
    have hkeys : row.map Prod.fst = sortStrings meta.columns.dedup := by
      rw [← hproj]
      exact projectRow_keys _ _
    refine ⟨hkeys, ?_, ?_⟩
    · rw [hkeys]
      exact sortStrings_pairwise _
    · intro c hc
      rw [hkeys, mem_sortStrings, List.mem_dedup]
      exact hc

/-- Select body used to witness the default-columns select claim. -/
def demoSelectBody : SelectBody :=
  { table := some "measured_shafts", columns := none,
    filters := [("product_id", Value.str "S1")] }

/-- Witness for the default-columns select theorem at a concrete request. -/
theorem select_default_columns_sorted_count_witness :
    generic_select appSchema emptyDb demoSelectBody =
      .ok { table := "measured_shafts", count := 0, data := [] } := by
  obtain ⟨r, hr, -, -, -⟩ := select_default_columns_sorted_count appSchema emptyDb
    demoSelectBody "measured_shafts" measured_shafts_meta rfl (by decide) rfl rfl (by decide)
  exact rfl

/-- C9: on a table whose primary key is a single column, an update supplying
`pk` as a list with more than one element does not fail on that account:
only the head of the list is merged into `filters` and the remaining
elements are ignored, so the request behaves exactly as if `pk` were the
scalar head. -/
theorem update_pk_list_uses_first_element
    (schema : Schema) (dbase : Db) (body : UpdateBody) (t : String) (meta : TableMeta)
    (c : String) (v : Value) (vs : List Value)
    (htable : body.table = some t) (hne : t ≠ "")
    (hmeta : alookup t schema = some meta) (hpk : meta.pkCols = [c])
    (hbodypk : body.pk = some (PkValue.list (v :: vs))) :
    generic_update schema dbase body =
      generic_update schema dbase { body with pk := some (PkValue.scalar v) } := by
  have hbuild : buildUpdatePlan schema body =
      buildUpdatePlan schema { body with pk := some (PkValue.scalar v) } := by
    rcases hset : body.set with - | sv
    · simp [buildUpdatePlan, htable, hne, hmeta, hset]
    · rcases sv with - | ⟨s0, ss⟩
      · simp [buildUpdatePlan, htable, hne, hmeta, hset]
      · by_cases hunk : unknownNames meta.columns ((s0 :: ss).map Prod.fst) = []
        · simp [buildUpdatePlan, htable, hne, hmeta, hset, hpk, hbodypk, hunk]
        · simp [buildUpdatePlan, htable, hne, hmeta, hset, hpk, hbodypk, hunk]
  simp only [generic_update, hbuild]

/-- Update body used to witness the pk-list claim: a three-element pk list. -/
def demoPkListBody : UpdateBody :=
  { table := some "user_entry", set := some [("name", Value.str "x")],
    filters := [], pk := some (PkValue.list [Value.num 1, Value.num 2, Value.num 3]) }

/-- Witness for the pk-list theorem at a concrete request: the extra pk
elements are ignored and the request behaves as pk = 1. -/
theorem update_pk_list_uses_first_element_witness :
    generic_update appSchema emptyDb demoPkListBody =
      generic_update appSchema emptyDb
        { demoPkListBody with pk := some (PkValue.scalar (Value.num 1)) } :=
  update_pk_list_uses_first_element appSchema emptyDb demoPkListBody "user_entry"
    user_entry_meta "id" (Value.num 1) [Value.num 2, Value.num 3]
    rfl (by decide) rfl rfl rfl

/-- C4: per-variant `product_id` uniqueness.  For both variants, inserting an
id that already exists fails with Conflict and returns the store unchanged
(never overwrites); after a fresh valid insert the id exists, and a second
insert of the same id for the same variant fails with Conflict, again
leaving the store unchanged. -/
theorem measurement_insert_unique_product_id
    (now now2 : Int) (st : ShaftStore) (hst : HousingStore)
    (entry entry2 hentry hentry2 : List (String × Value)) (pid hpid : Value)
    (h1 : alookup "product_id" entry = some pid)
    (h2 : alookup "product_id" entry2 = some pid)
    (h3 : firstMissingField shaftRequiredFields entry = none)
    (h4 : firstMissingField shaftRequiredFields entry2 = none)
    (h5 : shaftExists pid st = false)
    (g1 : alookup "product_id" hentry = some hpid)
    (g2 : alookup "product_id" hentry2 = some hpid)
    (g3 : firstMissingField housingRequiredFields hentry = none)
    (g4 : firstMissingField housingRequiredFields hentry2 = none)
    (g5 : fieldD hentry "housing_type" ∈ validHousingTypes)
    (g6 : fieldD hentry2 "housing_type" ∈ validHousingTypes)
    (g7 : housingExists hpid hst = false) :
    (∀ (st3 : ShaftStore) (e3 : List (String × Value)) (p3 : Value),
      alookup "product_id" e3 = some p3 →
      firstMissingField shaftRequiredFields e3 = none →
      shaftExists p3 st3 = true →
      add_shaft_measurement now st3 e3 = (.error .conflictShaft, st3))
    ∧ (∀ (hs3 : HousingStore) (e3 : List (String × Value)) (p3 : Value),
      alookup "product_id" e3 = some p3 →
      firstMissingField housingRequiredFields e3 = none →
      fieldD e3 "housing_type" ∈ validHousingTypes →
      housingExists p3 hs3 = true →
      add_housing_measurement now hs3 e3 = (.error .conflictHousing, hs3))
    ∧ shaftExists pid (add_shaft_measurement now st entry).2 = true
    ∧ add_shaft_measurement now2 (add_shaft_measurement now st entry).2 entry2 =
        (.error .conflictShaft, (add_shaft_measurement now st entry).2)
    ∧ housingExists hpid (add_housing_measurement now hst hentry).2 = true
    ∧ add_housing_measurement now2 (add_housing_measurement now hst hentry).2 hentry2 =
        (.error .conflictHousing, (add_housing_measurement now hst hentry).2) := by
  have shaft_conflict : ∀ (st3 : ShaftStore) (e3 : List (String × Value)) (p3 : Value),
      alookup "product_id" e3 = some p3 →
      firstMissingField shaftRequiredFields e3 = none →
      shaftExists p3 st3 = true →
      add_shaft_measurement now2 st3 e3 = (.error .conflictShaft, st3) := by
    intro st3 e3 p3 hp hm hex
    have hd : fieldD e3 "product_id" = p3 := by simp [fieldD, hp]
    simp [add_shaft_measurement, hm, hd, hex]
  have housing_conflict : ∀ (hs3 : HousingStore) (e3 : List (String × Value)) (p3 : Value),
      alookup "product_id" e3 = some p3 →
      firstMissingField housingRequiredFields e3 = none →
      fieldD e3 "housing_type" ∈ validHousingTypes →
      housingExists p3 hs3 = true →
      add_housing_measurement now2 hs3 e3 = (.error .conflictHousing, hs3) := by
    intro hs3 e3 p3 hp hm hv hex
    have hd : fieldD e3 "product_id" = p3 := by simp [fieldD, hp]
    simp [add_housing_measurement, hm, hv, hd, hex]
  have hpidD : fieldD entry "product_id" = pid := by simp [fieldD, h1]
  have hstep : (add_shaft_measurement now st entry).2 =
      { nextId := st.nextId + 1,
        rows := st.rows ++
          [{ id := st.nextId, product_id := pid,
             roll_number := fieldD entry "roll_number",
             shaft_height := fieldD entry "shaft_height",
             shaft_radius := fieldD entry "shaft_radius", timestamp := now }] } := by
    simp [add_shaft_measurement, h3, hpidD, h5]
  have hexists : shaftExists pid (add_shaft_measurement now st entry).2 = true := by
    rw [hstep]
    simp [shaftExists]
  have hpidDh : fieldD hentry "product_id" = hpid := by simp [fieldD, g1]
  have hsteph : (add_housing_measurement now hst hentry).2 =
      { nextId := hst.nextId + 1,
        rows := hst.rows ++
          [{ id := hst.nextId, product_id := hpid,
             roll_number := fieldD hentry "roll_number",
             housing_type := fieldD hentry "housing_type",
             housing_radius := fieldD hentry "housing_radius",
             housing_height := (alookup "housing_height" hentry).getD Value.null,
             housing_depth := (alookup "housing_depth" hentry).getD Value.null,
             timestamp := now }] } := by
    simp [add_housing_measurement, g3, g5, hpidDh, g7]
  have hexistsh : housingExists hpid (add_housing_measurement now hst hentry).2 = true := by
    rw [hsteph]
    simp [housingExists]
  refine ⟨?_, ?_, hexists, ?_, hexistsh, ?_⟩
  · intro st3 e3 p3 hp hm hex
    have hd : fieldD e3 "product_id" = p3 := by simp [fieldD, hp]
    simp [add_shaft_measurement, hm, hd, hex]
  · intro hs3 e3 p3 hp hm hv hex
    have hd : fieldD e3 "product_id" = p3 := by simp [fieldD, hp]
    simp [add_housing_measurement, hm, hv, hd, hex]
  · exact shaft_conflict _ entry2 pid h2 h4 hexists
  · exact housing_conflict _ hentry2 hpid g2 g4 g6 hexistsh

/-- A well-formed shaft insert body. -/
def demoShaftEntry : List (String × Value) :=
  [("product_id", Value.str "S1"), ("roll_number", Value.str "R1"),
   ("shaft_height", Value.num 25), ("shaft_radius", Value.num 12)]

/-- A well-formed housing insert body. -/
def demoHousingEntry : List (String × Value) :=
  [("product_id", Value.str "H1"), ("roll_number", Value.str "R1"),
   ("housing_type", Value.str "oval"), ("housing_height", Value.num 30),
   ("housing_radius", Value.num 10)]

/-- Fresh `measured_shafts` table. -/
def emptyShaftStore : ShaftStore := { nextId := 1, rows := [] }

/-- Fresh `measured_housings` table. -/
def emptyHousingStore : HousingStore := { nextId := 1, rows := [] }

/-- Witness for the uniqueness theorem: insert, exists, duplicate conflict at
concrete inputs. -/
theorem measurement_insert_unique_product_id_witness :
    shaftExists (Value.str "S1")
      (add_shaft_measurement 0 emptyShaftStore demoShaftEntry).2 = true
    ∧ add_shaft_measurement 1 (add_shaft_measurement 0 emptyShaftStore demoShaftEntry).2
        demoShaftEntry =
      (.error .conflictShaft, (add_shaft_measurement 0 emptyShaftStore demoShaftEntry).2)
    ∧ housingExists (Value.str "H1")
        (add_housing_measurement 0 emptyHousingStore demoHousingEntry).2 = true := by
  obtain ⟨-, -, e1, e2, e3, -⟩ := measurement_insert_unique_product_id 0 1
    emptyShaftStore emptyHousingStore demoShaftEntry demoShaftEntry demoHousingEntry
    demoHousingEntry (Value.str "S1") (Value.str "H1") (by decide) (by decide) (by decide)
    (by decide) (by decide) (by decide) (by decide) (by decide) (by decide) (by decide)
    (by decide) (by decide)
  exact ⟨e1, e2, e3⟩

/-- C7 counterexample: a successful `POST /shaft_measurement` answers exactly
with the status string and the database `id`; the body contains neither a
`product_id` key nor a `timestamp` key, contrary to the claimed
`(status, product_id, timestamp)` shape. -/
theorem shaft_insert_response_omits_product_id_and_timestamp :
    (add_shaft_measurement 0 emptyShaftStore demoShaftEntry).1 =
      .ok [("status", Value.str "shaft measurement added"), ("id", Value.num 1)]
    ∧ alookup "product_id"
        [("status", Value.str "shaft measurement added"), ("id", Value.num 1)] = none
    ∧ alookup "timestamp"
        [("status", Value.str "shaft measurement added"), ("id", Value.num 1)] = none :=
  ⟨rfl, rfl, rfl⟩

/-- C7 as amended: a missing required field - `product_id` itself included -
yields 400 naming the field and leaves the store untouched, a duplicate
`product_id` yields 409, and a successful insert answers with the status
string "shaft measurement added" and the inserted record's database id
(and nothing else). -/
theorem shaft_insert_response_contract :
    (∀ (now : Int) (st : ShaftStore) (entry : List (String × Value)) (f : String),
      firstMissingField shaftRequiredFields entry = some f →
      add_shaft_measurement now st entry = (.error (.missingField f), st) ∧
      statusOf (.missingField f) = 400)
    ∧ (∀ (now : Int) (st : ShaftStore) (entry : List (String × Value)) (pid : Value),
      alookup "product_id" entry = some pid →
      firstMissingField shaftRequiredFields entry = none → shaftExists pid st = true →
      add_shaft_measurement now st entry = (.error .conflictShaft, st) ∧
      statusOf .conflictShaft = 409)
    ∧ (∀ (now : Int) (st : ShaftStore) (entry : List (String × Value)) (pid : Value),
      alookup "product_id" entry = some pid →
      firstMissingField shaftRequiredFields entry = none → shaftExists pid st = false →
      (add_shaft_measurement now st entry).1 =
        .ok [("status", Value.str "shaft measurement added"),
             ("id", Value.num (Int.ofNat st.nextId))]) := by
  refine ⟨?_, ?_, ?_⟩
  · intro now st entry f hf
    exact ⟨by simp [add_shaft_measurement, hf], rfl⟩
  · intro now st entry pid hpid hm hex
    have hd : fieldD entry "product_id" = pid := by simp [fieldD, hpid]
    exact ⟨by simp [add_shaft_measurement, hm, hd, hex], rfl⟩
  · intro now st entry pid hpid hm hex
    have hd : fieldD entry "product_id" = pid := by simp [fieldD, hpid]
    simp [add_shaft_measurement, hm, hd, hex]

/-- Witness for the amended response-shape theorem: a body missing
`product_id` itself is answered 400 naming "product_id", a body missing
`roll_number` is answered 400 naming "roll_number", and a fresh valid
insert is answered with the status string and id only. -/
theorem shaft_insert_response_contract_witness :
    add_shaft_measurement 0 emptyShaftStore [("roll_number", Value.str "R1")] =
      (.error (.missingField "product_id"), emptyShaftStore)
    ∧ add_shaft_measurement 0 emptyShaftStore [("product_id", Value.str "S1")] =
      (.error (.missingField "roll_number"), emptyShaftStore)
    ∧ (add_shaft_measurement 0 emptyShaftStore demoShaftEntry).1 =
      .ok [("status", Value.str "shaft measurement added"), ("id", Value.num 1)] := by
  have h0 := shaft_insert_response_contract.1 0 emptyShaftStore
    [("roll_number", Value.str "R1")] "product_id" (by decide)
  have h1 := shaft_insert_response_contract.1 0 emptyShaftStore
    [("product_id", Value.str "S1")] "roll_number" (by decide)
  have h2 := shaft_insert_response_contract.2.2 0 emptyShaftStore demoShaftEntry
    (Value.str "S1") (by decide) (by decide) (by decide)
  exact ⟨h0.1, h1.1, h2⟩

/-- C5: completing an already-calibrated session is an idempotent success:
it returns the `already_completed` body and changes neither the session
store nor the user table; in particular a second `complete_calibration` on
a just-completed session returns that body and leaves the session — its
`created_at` and `status` included — untouched. -/
theorem complete_calibration_idempotent
    (now1 now2 : Int) (sid : String) (store : SessionStore) (udb : UserDb)
    (s : UserSession) (hs : get_user_session sid store = some s) :
    (s.status = "calibrated" →
      complete_calibration sid store udb now1 = (.ok alreadyCompletedBody, store, udb))
    ∧ (s.status = "pending_calibration" →
      ∃ s1, get_user_session sid (complete_calibration sid store udb now1).2.1 = some s1 ∧
        s1.status = "calibrated" ∧ s1.created_at = s.created_at ∧
        s1.roll_number = s.roll_number ∧ s1.name = s.name ∧
        complete_calibration sid (complete_calibration sid store udb now1).2.1
            (complete_calibration sid store udb now1).2.2 now2 =
          (.ok alreadyCompletedBody,
           (complete_calibration sid store udb now1).2.1,
           (complete_calibration sid store udb now1).2.2)) := by
  constructor
  · intro hcal
    simp [complete_calibration, hs, hcal]
  · intro hpend
    have hne : ¬ s.status = "calibrated" := by
      rw [hpend]
      decide
    have halook : alookup sid store = some s := hs
    have hP21 : (complete_calibration sid store udb now1).2.1 = markCalibrated sid store := by
      simp [complete_calibration, hs, hne, complete_user_session, halook]
    have hlook2 : get_user_session sid (markCalibrated sid store) =
        some { s with status := "calibrated" } := by
      rw [get_user_session, alookup_markCalibrated_self, halook]
      rfl
    have hsecond : ∀ udbx : UserDb,
        complete_calibration sid (markCalibrated sid store) udbx now2 =
          (.ok alreadyCompletedBody, markCalibrated sid store, udbx) := by
      intro udbx
      simp [complete_calibration, hlook2]
    refine ⟨{ s with status := "calibrated" }, ?_, rfl, rfl, rfl, rfl, ?_⟩
    · rw [hP21]
      exact hlook2
    · rw [hP21]
      exact hsecond _

/-- Session store used for the calibration witnesses. -/
def demoSessionStore : SessionStore :=
  [("sid1", { session_id := "sid1", roll_number := "R1", name := "Alice",
              created_at := 100, status := "pending_calibration",
              calibration_required := true })]

/-- Fresh `user_entry` table. -/
def emptyUserDb : UserDb := { nextId := 1, rows := [] }

/-- Witness for the idempotent-completion theorem: complete a concrete
pending session twice; the second call answers `already_completed` and
leaves everything unchanged, `created_at` included. -/
theorem complete_calibration_idempotent_witness :
    complete_calibration "sid1"
        (complete_calibration "sid1" demoSessionStore emptyUserDb 200).2.1
        (complete_calibration "sid1" demoSessionStore emptyUserDb 200).2.2 300 =
      (.ok alreadyCompletedBody,
       (complete_calibration "sid1" demoSessionStore emptyUserDb 200).2.1,
       (complete_calibration "sid1" demoSessionStore emptyUserDb 200).2.2) := by
  obtain ⟨s1, -, -, -, -, -, hrep⟩ :=
    (complete_calibration_idempotent 200 300 "sid1" demoSessionStore emptyUserDb
      { session_id := "sid1", roll_number := "R1", name := "Alice",
        created_at := 100, status := "pending_calibration", calibration_required := true }
      rfl).2 rfl
  exact hrep

/-- C10: completing a pending session whose roll number already has a
`user_entry` row only refreshes that first matching row's `last_login`,
`date` and `time`; every row's `name`, `id` and `roll_number` are unchanged
(in particular the session's `name` is not written over the stored one),
rows with other roll numbers survive untouched, and the autoincrement
counter does not move. -/
theorem complete_calibration_preserves_existing_name
    (sid : String) (store : SessionStore) (udb : UserDb) (now : Int)
    (s : UserSession) (u : UserEntry)
    (hs : get_user_session sid store = some s)
    (hpending : s.status = "pending_calibration")
    (hu : findUserByRoll s.roll_number udb.rows = some u) :
    (complete_calibration sid store udb now).2.2 =
      { udb with rows := touchFirstUser s.roll_number now udb.rows }
    ∧ ({ udb with rows := touchFirstUser s.roll_number now udb.rows } : UserDb).nextId =
        udb.nextId
    ∧ (touchFirstUser s.roll_number now udb.rows).map UserEntry.name =
        udb.rows.map UserEntry.name
    ∧ (touchFirstUser s.roll_number now udb.rows).map UserEntry.id =
        udb.rows.map UserEntry.id
    ∧ (touchFirstUser s.roll_number now udb.rows).map UserEntry.roll_number =
        udb.rows.map UserEntry.roll_number
    ∧ findUserByRoll s.roll_number (touchFirstUser s.roll_number now udb.rows) =
        some { u with last_login := some now, date := now / 86400, time := now % 86400 }
    ∧ (∀ x ∈ udb.rows, x.roll_number ≠ s.roll_number →
        x ∈ touchFirstUser s.roll_number now udb.rows) := by
  have hne : ¬ s.status = "calibrated" := by
    rw [hpending]
    decide
  refine ⟨?_, rfl, touchFirstUser_map_name _ _ _, touchFirstUser_map_id _ _ _,
    touchFirstUser_map_roll _ _ _, findUserByRoll_touchFirstUser now hu,
    fun x hx hxne => mem_touchFirstUser_of_ne hx hxne⟩
  simp [complete_calibration, hs, hne, hu]

/-- User table used for the frame-property witness: one row for R1 whose
stored name differs from the session's name. -/
def demoUserDb : UserDb :=
  { nextId := 2,
    rows := [{ id := 1, roll_number := "R1", name := "Stored Name",
               date := 0, time := 0, last_login := none }] }

/-- Witness for the frame-property theorem at concrete state: completing the
session refreshes `last_login`/`date`/`time` but keeps the stored name. -/
theorem complete_calibration_preserves_existing_name_witness :
    (complete_calibration "sid1" demoSessionStore demoUserDb 200000).2.2 =
      { nextId := 2,
        rows := [{ id := 1, roll_number := "R1", name := "Stored Name",
                   date := 2, time := 27200, last_login := some 200000 }] } := by
  obtain ⟨hmain, -, -, -, -, -, -⟩ :=
    complete_calibration_preserves_existing_name "sid1" demoSessionStore demoUserDb 200000
      { session_id := "sid1", roll_number := "R1", name := "Alice",
        created_at := 100, status := "pending_calibration", calibration_required := true }
      { id := 1, roll_number := "R1", name := "Stored Name",
        date := 0, time := 0, last_login := none }
      rfl rfl rfl
  rw [hmain]
  rfl

/-- Shaft table that really contains product "P1", used to show the
existence check is silently wrong when the storage layer fails. -/
def demoShaftStoreWithP1 : ShaftStore :=
  { nextId := 2,
    rows := [{ id := 1, product_id := Value.str "P1", roll_number := Value.str "R1",
               shaft_height := Value.num 25, shaft_radius := Value.num 12,
               timestamp := 0 }] }

/-- C8 counterexample: with the storage layer failing, `GET /product_exists`
does not answer 4xx/5xx — it answers 200 with `exists = false`, even though
the stored data does contain the product; likewise
`GET /measured_units/...` answers 200 "success" with empty lists. -/
theorem product_exists_masks_storage_failure :
    shaftExists (Value.str "P1") demoShaftStoreWithP1 = true
    ∧ product_exists_endpoint "shaft" (Value.str "P1") demoShaftStoreWithP1
        emptyHousingStore true =
      .ok [("measurement_type", Value.str "shaft"), ("product_id", Value.str "P1"),
           ("exists", Value.bool false)]
    ∧ get_measured_units_by_roll_number "R1" demoShaftStoreWithP1 emptyHousingStore true =
      { status := "success", roll_number := "R1",
        shaft_measurements := [], housing_measurements := [] } :=
  ⟨rfl, rfl, rfl⟩

/-- C8 as amended: `GET /product_exists` and `GET /measured_units/...` are
silent-failure endpoints: whenever the underlying storage query fails they
answer 200 with default-filled data (`exists = false`, respectively empty
measurement lists and status "success") instead of a 4xx/5xx error. -/
theorem storage_failure_masking_endpoints
    (pid : Value) (rollNumber : String) (shafts : ShaftStore) (housings : HousingStore) :
    product_exists_endpoint "shaft" pid shafts housings true =
      .ok [("measurement_type", Value.str "shaft"), ("product_id", pid),
           ("exists", Value.bool false)]
    ∧ product_exists_endpoint "housing" pid shafts housings true =
      .ok [("measurement_type", Value.str "housing"), ("product_id", pid),
           ("exists", Value.bool false)]
    ∧ get_measured_units_by_roll_number rollNumber shafts housings true =
      { status := "success", roll_number := rollNumber,
        shaft_measurements := [], housing_measurements := [] } := by
  refine ⟨?_, ?_, rfl⟩ <;> simp [product_exists_endpoint]

theorem generic_update_of_build_error {schema : Schema} {dbase : Db} {body : UpdateBody}
    {e : ErrorDetail} (h : buildUpdatePlan schema body = .error e) :
    generic_update schema dbase body = (.error e, dbase) := by
  simp [generic_update, h]

theorem foldl_setKey_ne_nil_of_ne_nil (c : String) (vs : List Value)
    {fs : List (String × Value)} (hfs : fs ≠ []) :
    vs.foldl (fun a v => setKey c v a) fs ≠ [] := by
  induction vs generalizing fs with
  | nil => exact hfs
  | cons v vs ih => exact ih (setKey_ne_nil _)

theorem foldl_setKey_cons_ne_nil (c : String) (v : Value) (vs : List Value)
    (fs : List (String × Value)) :
    (v :: vs).foldl (fun a w => setKey c w a) fs ≠ [] := by
  simp only [List.foldl_cons]
  exact foldl_setKey_ne_nil_of_ne_nil c vs (setKey_ne_nil _)

/-- The concrete C2-falsifying request: empty `filters` and `pk` supplied as
the empty list. -/
def demoEmptyPkBody : UpdateBody :=
  { table := some "user_entry", set := some [("name", Value.str "x")],
    filters := [], pk := some (PkValue.list []) }

/-- C2 counterexample: with empty `filters` and `pk = []` the merged filter
mapping is still empty, yet the request fails with 500 (the `pk_values[0]`
IndexError swallowed by the blanket handler), not with BadRequest 400 as
claimed. -/
theorem generic_update_empty_filters_empty_pk_list_gives_500 :
    specMergedFilters user_entry_meta demoEmptyPkBody = []
    ∧ (generic_update appSchema emptyDb demoEmptyPkBody).1 = .error .internalError
    ∧ statusOf .internalError = 500 :=
  ⟨rfl, rfl, rfl⟩

/-- C2 as amended: on a known table with a non-empty `set`, whenever the
spec-level merged filter mapping is empty the request fails without touching
the database — with a 400 except in the one anomalous case `pk = []`, which
fails with InternalError 500 — and no successfully validated update ever has
an empty WHERE clause (no unfiltered full-table UPDATE is possible). -/
theorem empty_filter_update_guard
    (schema : Schema) (dbase : Db) (body : UpdateBody) (t : String) (meta : TableMeta)
    (htable : body.table = some t) (hne : t ≠ "")
    (hmeta : alookup t schema = some meta)
    (hmerged : specMergedFilters meta body = []) :
    (∃ e, generic_update schema dbase body = (.error e, dbase) ∧
       (statusOf e = 400 ∨ (e = .internalError ∧ body.pk = some (PkValue.list []))))
    ∧ (∀ (schema2 : Schema) (body2 : UpdateBody) (p : UpdatePlan),
        buildUpdatePlan schema2 body2 = .ok p → p.filters ≠ []) := by
  refine ⟨?_, fun schema2 body2 p hp => buildUpdatePlan_ok_filters_ne_nil hp⟩
  rcases hset : body.set with - | sv
  · exact ⟨.missingSet,
      generic_update_of_build_error (by simp [buildUpdatePlan, htable, hne, hmeta, hset]),
      Or.inl rfl⟩
  · rcases sv with - | ⟨s0, ss⟩
    · exact ⟨.missingSet,
        generic_update_of_build_error (by simp [buildUpdatePlan, htable, hne, hmeta, hset]),
        Or.inl rfl⟩
    · by_cases hunk : unknownNames meta.columns (s0.1 :: ss.map Prod.fst) = []
      · rcases hpkv : body.pk with - | pv
        · have hfil : body.filters = [] := by
            simpa [specMergedFilters, hpkv] using hmerged
          refine ⟨.refusingUpdate, generic_update_of_build_error ?_, Or.inl rfl⟩
          simp [buildUpdatePlan, htable, hne, hmeta, hset, hunk, hpkv,
            finishUpdatePlan, hfil]
        · rcases hpkc : meta.pkCols with - | ⟨c, cs⟩
          · refine ⟨.noPrimaryKey, generic_update_of_build_error ?_, Or.inl rfl⟩
            simp [buildUpdatePlan, htable, hne, hmeta, hset, hunk, hpkv, hpkc]
          · rcases pv with v | vs
            · exfalso
              have hk : setKey c v body.filters = [] := by
                simpa [specMergedFilters, hpkv, hpkc] using hmerged
              exact setKey_ne_nil _ hk
            · rcases vs with - | ⟨v, vs2⟩
              · rcases cs with - | ⟨c2, cs2⟩
                · refine ⟨.internalError, generic_update_of_build_error ?_,
                    Or.inr ⟨rfl, by simp [hpkv]⟩⟩
                  simp [buildUpdatePlan, htable, hne, hmeta, hset, hunk, hpkv, hpkc]
                · refine ⟨.compositePkList, generic_update_of_build_error ?_, Or.inl rfl⟩
                  simp [buildUpdatePlan, htable, hne, hmeta, hset, hunk, hpkv, hpkc]
              · exfalso
                have hk : (v :: vs2).foldl (fun a w => setKey c w a) body.filters = [] := by
                  simpa [specMergedFilters, hpkv, hpkc] using hmerged
                exact foldl_setKey_cons_ne_nil c v vs2 body.filters hk
      · exact ⟨.unknownSetColumns (unknownNames meta.columns (s0.1 :: ss.map Prod.fst)),
          generic_update_of_build_error
            (by simp [buildUpdatePlan, htable, hne, hmeta, hset, hunk]),
          Or.inl rfl⟩

/-- Update request with neither filters nor pk. -/
def demoNoFilterBody : UpdateBody :=
  { table := some "user_entry", set := some [("name", Value.str "x")],
    filters := [], pk := none }

/-- Witness for the amended empty-filter guard: an update with no filters
and no pk leaves the database untouched. -/
theorem empty_filter_update_guard_witness :
    (generic_update appSchema emptyDb demoNoFilterBody).2 = emptyDb := by
  obtain ⟨e, he, -⟩ := (empty_filter_update_guard appSchema emptyDb demoNoFilterBody
    "user_entry" user_entry_meta rfl (by decide) rfl rfl).1
  rw [he]

theorem finishUpdatePlan_unknown_filter {t : String} {valid : List String}
    {sv fs : List (String × Value)} {kv : String × Value}
    (hsv : ∀ y ∈ sv.map Prod.fst, y ∈ valid)
    (hkv : kv ∈ fs) (hkvnot : kv.1 ∉ valid) :
    ∃ k, finishUpdatePlan t valid sv fs = .error (.unknownFilterColumn k) ∧ k ∉ valid := by
  have hfs : fs ≠ [] := List.ne_nil_of_mem hkv
  have hsv2 : firstUnknownKey valid sv = none := by
    apply firstUnknownKey_eq_none.mpr
    intro kv2 hkv2
    exact hsv kv2.1 (List.mem_map_of_mem _ hkv2)
  obtain ⟨k, hk, hknot⟩ := firstUnknownKey_isSome_of_mem hkv hkvnot
  exact ⟨k, by simp [finishUpdatePlan, hfs, hsv2, hk], hknot⟩

theorem exists_unknown_in_setKey {fs : List (String × Value)} {kv : String × Value}
    {valid : List String} (hkv : kv ∈ fs) (hnot : kv.1 ∉ valid) (c : String) (v : Value) :
    ∃ kv2, kv2 ∈ setKey c v fs ∧ kv2.1 ∉ valid := by
  by_cases hc : c ∈ valid
  · have hne : kv.1 ≠ c := by
      intro h
      rw [h] at hnot
      exact hnot hc
    exact ⟨kv, mem_setKey_of_ne hkv hne, hnot⟩
  · exact ⟨(c, v), mem_setKey_self fs, hc⟩

/-- The concrete C1-falsifying request: an unknown filter column together
with `pk` supplied as the empty list. -/
def demoBadFilterEmptyPkBody : UpdateBody :=
  { table := some "user_entry", set := some [("name", Value.str "x")],
    filters := [("bogus", Value.str "y")], pk := some (PkValue.list []) }

/-- C1 counterexample: an update on a known table with an unknown `filters`
column ("bogus") together with `pk = []` fails with 500 (IndexError caught
by the blanket handler), not with a 400 naming the offending column. -/
theorem generic_update_unknown_filter_with_empty_pk_list_gives_500 :
    ("bogus" ∈ demoBadFilterEmptyPkBody.filters.map Prod.fst
      ∧ "bogus" ∉ user_entry_meta.columns)
    ∧ (generic_update appSchema emptyDb demoBadFilterEmptyPkBody).1 =
        .error .internalError
    ∧ statusOf .internalError = 500 :=
  ⟨⟨by decide, by decide⟩, rfl, rfl⟩

/-- C1 as amended: unknown names are rejected with BadRequest naming the
offenders, before any SQL runs (the result never depends on the database
and the database is returned untouched) — for select's `columns` and
`filters` unconditionally, and for update's `set` unconditionally; for
update's `filters` the same holds provided `pk` is absent, is a scalar on a
table with a primary key, or is a non-empty list on a single-column primary
key (when `pk` is an empty list the request instead dies with 500, and a
`pk` against a missing or composite primary key is rejected with a
pk-related 400 first). -/
theorem unknown_columns_rejected_before_sql :
    (∀ (schema : Schema) (body : SelectBody) (t : String) (meta : TableMeta) (x : String),
      body.table = some t → t ≠ "" → alookup t schema = some meta →
      x ∈ requestedColumns body → x ∉ meta.columns →
      ∃ l, (∀ dbase : Db, generic_select schema dbase body = .error (.unknownColumns l)) ∧
        statusOf (.unknownColumns l) = 400 ∧ l ≠ [] ∧ ∀ y ∈ l, y ∉ meta.columns)
    ∧ (∀ (schema : Schema) (body : SelectBody) (t : String) (meta : TableMeta)
        (kv : String × Value),
      body.table = some t → t ≠ "" → alookup t schema = some meta →
      (∀ y ∈ requestedColumns body, y ∈ meta.columns) →
      kv ∈ body.filters → kv.1 ∉ meta.columns →
      ∃ k, (∀ dbase : Db, generic_select schema dbase body =
          .error (.unknownFilterColumn k)) ∧
        statusOf (.unknownFilterColumn k) = 400 ∧ k ∉ meta.columns)
    ∧ (∀ (schema : Schema) (body : UpdateBody) (t : String) (meta : TableMeta)
        (sv : List (String × Value)) (x : String),
      body.table = some t → t ≠ "" → alookup t schema = some meta →
      body.set = some sv → x ∈ sv.map Prod.fst → x ∉ meta.columns →
      ∃ l, (∀ dbase : Db, generic_update schema dbase body =
          (.error (.unknownSetColumns l), dbase)) ∧
        statusOf (.unknownSetColumns l) = 400 ∧ l ≠ [] ∧ ∀ y ∈ l, y ∉ meta.columns)
    ∧ (∀ (schema : Schema) (body : UpdateBody) (t : String) (meta : TableMeta)
        (sv : List (String × Value)) (kv : String × Value),
      body.table = some t → t ≠ "" → alookup t schema = some meta →
      body.set = some sv → sv ≠ [] → (∀ y ∈ sv.map Prod.fst, y ∈ meta.columns) →
      (body.pk = none
        ∨ (∃ v, body.pk = some (PkValue.scalar v) ∧ meta.pkCols ≠ [])
        ∨ (∃ v vs c, body.pk = some (PkValue.list (v :: vs)) ∧ meta.pkCols = [c])) →
      kv ∈ body.filters → kv.1 ∉ meta.columns →
      ∃ k, (∀ dbase : Db, generic_update schema dbase body =
          (.error (.unknownFilterColumn k), dbase)) ∧
        statusOf (.unknownFilterColumn k) = 400 ∧ k ∉ meta.columns) := by
  refine ⟨?_, ?_, ?_, ?_⟩
  · intro schema body t meta x htable hne hmeta hx hxnot
    have hxm : x ∈ unknownNames meta.columns (requestedColumns body) :=
      mem_unknownNames.mpr ⟨hx, hxnot⟩
    have hneq : unknownNames meta.columns (requestedColumns body) ≠ [] :=
      List.ne_nil_of_mem hxm
    refine ⟨unknownNames meta.columns (requestedColumns body), ?_, rfl, hneq, ?_⟩
    · intro dbase
      simp [generic_select, buildSelectPlan, htable, hne, hmeta, hneq, Except.map]
    · intro y hy
      exact (mem_unknownNames.mp hy).2
  · intro schema body t meta kv htable hne hmeta hvalid hkv hkvnot
    have hunk : unknownNames meta.columns (requestedColumns body) = [] :=
      unknownNames_eq_nil.mpr hvalid
    obtain ⟨k, hk, hknot⟩ := firstUnknownKey_isSome_of_mem hkv hkvnot
    refine ⟨k, ?_, rfl, hknot⟩
    intro dbase
    simp [generic_select, buildSelectPlan, htable, hne, hmeta, hunk, hk, Except.map]
  · intro schema body t meta sv x htable hne hmeta hset hx hxnot
    rcases sv with - | ⟨s0, ss⟩
    · simp at hx
    · have hxm : x ∈ unknownNames meta.columns (s0.1 :: ss.map Prod.fst) := by
        apply mem_unknownNames.mpr
        exact ⟨by simpa using hx, hxnot⟩
      have hneq : unknownNames meta.columns (s0.1 :: ss.map Prod.fst) ≠ [] :=
        List.ne_nil_of_mem hxm
      refine ⟨unknownNames meta.columns (s0.1 :: ss.map Prod.fst), ?_, rfl, hneq, ?_⟩
      · intro dbase
        exact generic_update_of_build_error
          (by simp [buildUpdatePlan, htable, hne, hmeta, hset, hneq])
      · intro y hy
        exact (mem_unknownNames.mp hy).2
  · intro schema body t meta sv kv htable hne hmeta hset hsvne hvalid hpkOk hkv hkvnot
    rcases sv with - | ⟨s0, ss⟩
    · exact absurd rfl hsvne
    · have hunk : unknownNames meta.columns (s0.1 :: ss.map Prod.fst) = [] := by
        apply unknownNames_eq_nil.mpr
        intro y hy
        exact hvalid y (by simpa using hy)
      have hmain : ∃ fs2, buildUpdatePlan schema body =
          finishUpdatePlan t meta.columns (s0 :: ss) fs2 ∧
          ∃ kv2, kv2 ∈ fs2 ∧ kv2.1 ∉ meta.columns := by
        rcases hpkOk with hnone | ⟨v, hpk, hpkne⟩ | ⟨v, vs, c, hpk, hpkc⟩
        · exact ⟨body.filters,
            by simp [buildUpdatePlan, htable, hne, hmeta, hset, hunk, hnone],
            kv, hkv, hkvnot⟩
        · rcases hc : meta.pkCols with - | ⟨c, cs⟩
          · exact absurd hc hpkne
          · exact ⟨setKey c v body.filters,
              by simp [buildUpdatePlan, htable, hne, hmeta, hset, hunk, hpk, hc],
              exists_unknown_in_setKey hkv hkvnot c v⟩
        · exact ⟨setKey c v body.filters,
            by simp [buildUpdatePlan, htable, hne, hmeta, hset, hunk, hpk, hpkc],
            exists_unknown_in_setKey hkv hkvnot c v⟩
      obtain ⟨fs2, hb, kv2, hkv2, hkv2not⟩ := hmain
      obtain ⟨k, hfin, hknot⟩ :=
        finishUpdatePlan_unknown_filter (t := t) hvalid hkv2 hkv2not
      refine ⟨k, ?_, rfl, hknot⟩
      intro dbase
      exact generic_update_of_build_error (by rw [hb, hfin])

/-- Select request naming an unknown column. -/
def demoBadColumnsSelect : SelectBody :=
  { table := some "user_entry", columns := some ["bogus"], filters := [] }

/-- Select request with an unknown filter key. -/
def demoBadFilterSelect : SelectBody :=
  { table := some "user_entry", columns := none, filters := [("bogus", Value.str "y")] }

/-- Update request with an unknown set column. -/
def demoBadSetUpdate : UpdateBody :=
  { table := some "user_entry", set := some [("bogus", Value.str "x")],
    filters := [("id", Value.num 1)], pk := none }

/-- Update request with an unknown filter key and no pk. -/
def demoBadFilterUpdate : UpdateBody :=
  { table := some "user_entry", set := some [("name", Value.str "x")],
    filters := [("bogus", Value.str "y")], pk := none }

/-- Witness for the amended rejection theorem, one concrete request per
part: each malformed request is refused (never a success body) and the
update ones leave the database untouched. -/
theorem unknown_columns_rejected_before_sql_witness :
    generic_select appSchema emptyDb demoBadColumnsSelect ≠
      .ok { table := "user_entry", count := 0, data := [] }
    ∧ generic_select appSchema emptyDb demoBadFilterSelect ≠
      .ok { table := "user_entry", count := 0, data := [] }
    ∧ (generic_update appSchema emptyDb demoBadSetUpdate).2 = emptyDb
    ∧ (generic_update appSchema emptyDb demoBadFilterUpdate).2 = emptyDb := by
  obtain ⟨hA, hB, hC, hD⟩ := unknown_columns_rejected_before_sql
  obtain ⟨l1, h1, -, -, -⟩ := hA appSchema demoBadColumnsSelect "user_entry"
    user_entry_meta "bogus" rfl (by decide) rfl (by decide) (by decide)
  obtain ⟨k2, h2, -, -⟩ := hB appSchema demoBadFilterSelect "user_entry" user_entry_meta
    ("bogus", Value.str "y") rfl (by decide) rfl (by decide) (by decide) (by decide)
  obtain ⟨l3, h3, -, -, -⟩ := hC appSchema demoBadSetUpdate "user_entry" user_entry_meta
    [("bogus", Value.str "x")] "bogus" rfl (by decide) rfl rfl (by decide) (by decide)
  obtain ⟨k4, h4, -, -⟩ := hD appSchema demoBadFilterUpdate "user_entry" user_entry_meta
    [("name", Value.str "x")] ("bogus", Value.str "y") rfl (by decide) rfl rfl
    (by decide) (by decide) (Or.inl rfl) (by decide) (by decide)
  refine ⟨?_, ?_, ?_, ?_⟩
  · intro hcontra
    rw [h1 emptyDb] at hcontra
    exact Except.noConfusion hcontra
  · intro hcontra
    rw [h2 emptyDb] at hcontra
    exact Except.noConfusion hcontra
  · rw [h3 emptyDb]
  · rw [h4 emptyDb]
